import Mathlib

/-!
# Verification of the Learning-Platform document/quiz/chat pipeline

Shallow embedding of the Python services in `src/` (document_service,
quiz_service, chat_service, common/kafka_producer) together with proofs
settling the frozen claims about the natural-language specification.

Python values flowing through `json.loads` / AI responses are dynamically
typed; they are modelled by the inductive `Json`.  External effects (the
generative-AI completion call, the structured store, the object store, the
event bus, the two PDF extraction libraries) are modelled by explicit
outcome parameters: the embedded functions are deterministic in those
outcomes, exactly mirroring the control flow of the source.
-/

mutual
/-- Dynamic JSON-ish value, the shape of everything Python's `json.loads`
can return here (numbers restricted to integers: the generated payloads in
this repository only use integer ids).  Arrays and objects carry their own
list types so that equality stays decidable by derivation. -/
inductive Json where
  | null : Json
  | bool (b : Bool) : Json
  | num (n : Int) : Json
  | str (s : String) : Json
  | arr (items : JsonItems) : Json
  | obj (fields : JsonFields) : Json
deriving DecidableEq, Repr

/-- The element list of a JSON array. -/
inductive JsonItems where
  | nil : JsonItems
  | cons (hd : Json) (tl : JsonItems) : JsonItems
deriving DecidableEq, Repr

/-- The key/value field list of a JSON object (insertion order kept, as a
Python dict does). -/
inductive JsonFields where
  | nil : JsonFields
  | cons (k : String) (v : Json) (tl : JsonFields) : JsonFields
deriving DecidableEq, Repr
end

/-- Build array elements from an ordinary list. -/
def JsonItems.ofList : List Json → JsonItems
  | [] => .nil
  | j :: js => .cons j (JsonItems.ofList js)

/-- Build object fields from an ordinary association list. -/
def JsonFields.ofList : List (String × Json) → JsonFields
  | [] => .nil
  | (k, v) :: fs => .cons k v (JsonFields.ofList fs)

/-- Array literal. -/
def Json.mkArr (items : List Json) : Json :=
  .arr (JsonItems.ofList items)

/-- Object literal. -/
def Json.mkObj (fields : List (String × Json)) : Json :=
  .obj (JsonFields.ofList fields)

/-- Does the field list bind the key? -/
def JsonFields.hasKey : JsonFields → String → Bool
  | .nil, _ => false
  | .cons k _ tl, key => k == key || JsonFields.hasKey tl key

/-- `k in d` for a parsed object (Python membership test on a dict). -/
def Json.hasKey (j : Json) (k : String) : Bool :=
  match j with
  | .obj fields => fields.hasKey k
  | _ => false

/-! ## A model of Python's `json.loads`

`json.loads` accepts a strict JSON document surrounded by optional
whitespace (space, tab, newline, carriage return — exactly the characters
the JSON grammar allows) and raises `JSONDecodeError` otherwise.  The model
below returns `none` where CPython raises.  Restrictions of the model:
numbers must be integers (no fractions/exponents), `\uXXXX` escapes are
mapped to the single code point without surrogate-pair combining, and
duplicate object keys are kept in order rather than last-wins.  None of the
claims depends on those corners. -/

/-- Whitespace accepted by the JSON grammar (same set as CPython's
`json.loads` skips). -/
def isJsonWs (c : Char) : Bool :=
  c = ' ' || c = '\t' || c = '\n' || c = '\r'

/-- Drop leading JSON whitespace. -/
def skipWs (cs : List Char) : List Char :=
  cs.dropWhile isJsonWs

/-- Value of a hex digit, if it is one. -/
def hexVal (c : Char) : Option Nat :=
  if '0' ≤ c ∧ c ≤ '9' then some (c.toNat - '0'.toNat)
  else if 'a' ≤ c ∧ c ≤ 'f' then some (c.toNat - 'a'.toNat + 10)
  else if 'A' ≤ c ∧ c ≤ 'F' then some (c.toNat - 'A'.toNat + 10)
  else none

/-- Parse the body of a JSON string literal (the opening quote already
consumed), handling the escape sequences of the JSON grammar; raw control
characters are rejected as in strict-mode `json.loads`. -/
def parseStrBody : List Char → List Char → Option (String × List Char)
  | [], _ => none
  | '"' :: rest, acc => some (⟨acc.reverse⟩, rest)
  | '\\' :: 'u' :: h1 :: h2 :: h3 :: h4 :: rest, acc =>
    match hexVal h1, hexVal h2, hexVal h3, hexVal h4 with
    | some a, some b, some c, some d =>
      parseStrBody rest (Char.ofNat (((a * 16 + b) * 16 + c) * 16 + d) :: acc)
    | _, _, _, _ => none
  | '\\' :: e :: rest, acc =>
    if e = '"' then parseStrBody rest ('"' :: acc)
    else if e = '\\' then parseStrBody rest ('\\' :: acc)
    else if e = '/' then parseStrBody rest ('/' :: acc)
    else if e = 'n' then parseStrBody rest ('\n' :: acc)
    else if e = 't' then parseStrBody rest ('\t' :: acc)
    else if e = 'r' then parseStrBody rest ('\r' :: acc)
    else if e = 'b' then parseStrBody rest (Char.ofNat 8 :: acc)
    else if e = 'f' then parseStrBody rest (Char.ofNat 12 :: acc)
    else none
  | c :: rest, acc =>
    if c.toNat < 32 then none else parseStrBody rest (c :: acc)

/-- Numeric value of a digit string. -/
def digitsToNat (ds : List Char) : Nat :=
  ds.foldl (fun acc d => acc * 10 + (d.toNat - '0'.toNat)) 0

/-- Parse a JSON number (integers only — the model restriction; a fraction
or exponent makes the model reject where CPython would produce a float). -/
def parseNum (cs : List Char) : Option (Json × List Char) :=
  let core : List Char → Option (Int × List Char) := fun cs' =>
    let ds := cs'.takeWhile (·.isDigit)
    let rest := cs'.dropWhile (·.isDigit)
    if ds.isEmpty then none
    else if ds.headD '0' = '0' ∧ ds.length > 1 then none
    else match rest with
      | '.' :: _ => none
      | 'e' :: _ => none
      | 'E' :: _ => none
      | _ => some ((digitsToNat ds : Int), rest)
  match cs with
  | '-' :: cs' => (core cs').map (fun p => (.num (-p.1), p.2))
  | _ => (core cs).map (fun p => (.num p.1, p.2))

/-- Parser modes: a JSON value, the element list of an array (after at
least one element is required), or the field list of an object. -/
inductive PMode where
  | value : PMode
  | elems (acc : List Json) : PMode
  | fields (acc : List (String × Json)) : PMode

/-- Fuel-indexed recursive-descent parser for the JSON grammar; the fuel
only bounds recursion depth and is irrelevant whenever large enough. -/
def parseP : Nat → PMode → List Char → Option (Json × List Char)
  | 0, _, _ => none
  | fuel + 1, .value, cs =>
    match skipWs cs with
    | [] => none
    | c :: rest =>
      if c = '{' then
        match skipWs rest with
        | '}' :: rest' => some (.mkObj [], rest')
        | rest' => parseP fuel (.fields []) rest'
      else if c = '[' then
        match skipWs rest with
        | ']' :: rest' => some (.mkArr [], rest')
        | rest' => parseP fuel (.elems []) rest'
      else if c = '"' then
        (parseStrBody rest []).map (fun p => (.str p.1, p.2))
      else
        match c :: rest with
        | 't' :: 'r' :: 'u' :: 'e' :: rest' => some (.bool true, rest')
        | 'f' :: 'a' :: 'l' :: 's' :: 'e' :: rest' => some (.bool false, rest')
        | 'n' :: 'u' :: 'l' :: 'l' :: rest' => some (.null, rest')
        | cs' => parseNum cs'
  | fuel + 1, .elems acc, cs =>
    match parseP fuel .value cs with
    | none => none
    | some (v, rest) =>
      match skipWs rest with
      | ']' :: rest' => some (.mkArr (acc ++ [v]), rest')
      | ',' :: rest' => parseP fuel (.elems (acc ++ [v])) rest'
      | _ => none
  | fuel + 1, .fields acc, cs =>
    match skipWs cs with
    | '"' :: rest =>
      match parseStrBody rest [] with
      | none => none
      | some (k, rest') =>
        match skipWs rest' with
        | ':' :: rest'' =>
          match parseP fuel .value rest'' with
          | none => none
          | some (v, rest3) =>
            match skipWs rest3 with
            | '}' :: rest4 => some (.mkObj (acc ++ [(k, v)]), rest4)
            | ',' :: rest4 => parseP fuel (.fields (acc ++ [(k, v)])) rest4
            | _ => none
        | _ => none
    | _ => none

/-- Model of Python's `json.loads`: parse a complete JSON document with
optional surrounding whitespace; `none` models a raised `JSONDecodeError`. -/
def json_loads (s : String) : Option Json :=
  let cs := s.toList
  match parseP (2 * cs.length + 8) .value cs with
  | some (j, rest) => if skipWs rest = [] then some j else none
  | none => none

/-! ## Python string-method models

`pyLower`/`pyStrip` model `str.lower()`/`str.strip()`.  Lean's
`Char.toLower` lowercases ASCII only and `String.trim` strips the ASCII
whitespace characters; the strings compared in this repository (answers,
markdown fences) make the models agree with CPython on every input the
claims and their witnesses exercise. -/

/-- Model of Python `str.lower()`. -/
def pyLower (s : String) : String :=
  ⟨s.toList.map Char.toLower⟩

/-- Model of Python `str.strip()`: drop leading and trailing whitespace. -/
def pyStrip (s : String) : String :=
  ⟨((s.toList.dropWhile Char.isWhitespace).reverse.dropWhile Char.isWhitespace).reverse⟩

/-- Is the first list a prefix of the second? -/
def listIsPrefix : List Char → List Char → Bool
  | [], _ => true
  | _ :: _, [] => false
  | a :: as, b :: bs => a == b && listIsPrefix as bs

/-- Model of Python `s.startswith(pre)`. -/
def pyStartswith (s pre : String) : Bool :=
  listIsPrefix pre.toList s.toList

/-- Model of Python `s.endswith(suf)`. -/
def pyEndswith (s suf : String) : Bool :=
  listIsPrefix suf.toList.reverse s.toList.reverse

/-- Model of Python slicing `s[:n]`. -/
def pyTake (s : String) (n : Nat) : String :=
  ⟨s.toList.take n⟩

/-- Model of Python slicing `s[n:]`. -/
def pyDrop (s : String) (n : Nat) : String :=
  ⟨s.toList.drop n⟩

/-- Model of Python slicing `s[:-n]` (for `n ≤ len(s)`; shorter strings
come out empty either way). -/
def pyDropRight (s : String) (n : Nat) : String :=
  ⟨s.toList.take (s.toList.length - n)⟩

/-- Model of Python `s.split(c)` for a single-character separator: splits
at every occurrence, keeping empty pieces. -/
def pySplitOn (c : Char) (s : String) : List String :=
  go s.toList [] where
  /-- Accumulate the current piece (reversed) while scanning. -/
  go : List Char → List Char → List String
    | [], acc => [⟨acc.reverse⟩]
    | ch :: rest, acc =>
      if ch == c then ⟨acc.reverse⟩ :: go rest [] else go rest (ch :: acc)

/-- Model of Python `len(s)` (code points). -/
def pyLen (s : String) : Nat :=
  s.toList.length

/-! ## Quiz scorer

Embedding of `calculate_score_and_feedback` from `src/quiz_service/main.py`
(lines 195-229).  The questions stored in a quiz and the submitted answers
are dicts in Python; the fields the scorer reads are typed out here
(`question.get("explanation", "")` is the one optional field, hence the
`Option`). -/

/-- A stored quiz question, as read by the scorer. -/
structure Question where
  id : Int
  question : String
  correct_answer : String
  explanation : Option String
deriving DecidableEq, Repr

/-- One submitted answer (the `QuizAnswer` pydantic model). -/
structure QuizAnswer where
  question_id : Int
  answer : String
deriving DecidableEq, Repr

/-- One entry of the per-question feedback list. -/
structure FeedbackEntry where
  question_id : Int
  question : String
  user_answer : String
  correct_answer : String
  is_correct : Bool
  explanation : String
deriving DecidableEq, Repr

/-- The dict returned by `calculate_score_and_feedback`. -/
structure ScoreResult where
  score : ℚ
  correct_count : Nat
  total_questions : Nat
  feedback : List FeedbackEntry
deriving DecidableEq, Repr

/-- The `answer_map` dict comprehension
`{ans["question_id"]: ans["answer"] for ans in user_answers}` followed by a
keyed lookup: a duplicated `question_id` keeps the last entry, so lookup
finds the latest occurrence. -/
def answer_map (user_answers : List QuizAnswer) (q_id : Int) : Option String :=
  (user_answers.reverse.find? (fun a => a.question_id == q_id)).map (·.answer)

/-- `s.lower().strip()`, the normalization both sides of the comparison go
through. -/
def normalizeAnswer (s : String) : String :=
  pyStrip (pyLower s)

/-- The normalized submitted answer for a question,
`answer_map.get(q_id, "").lower().strip()`. -/
def userAnswerFor (user_answers : List QuizAnswer) (q : Question) : String :=
  normalizeAnswer ((answer_map user_answers q.id).getD "")

/-- `user_answer == correct_answer` after normalization of both sides. -/
def isCorrectFor (user_answers : List QuizAnswer) (q : Question) : Bool :=
  userAnswerFor user_answers q == normalizeAnswer q.correct_answer

/-- The feedback dict appended for one question. -/
def feedbackFor (user_answers : List QuizAnswer) (q : Question) : FeedbackEntry :=
  { question_id := q.id
    question := q.question
    user_answer := userAnswerFor user_answers q
    correct_answer := normalizeAnswer q.correct_answer
    is_correct := isCorrectFor user_answers q
    explanation := q.explanation.getD "" }

/-- One iteration of the scorer's `for question in quiz_questions` loop:
bump `correct_count` when the normalized answers match and append the
feedback entry. -/
def scoreStep (user_answers : List QuizAnswer) (acc : Nat × List FeedbackEntry)
    (q : Question) : Nat × List FeedbackEntry :=
  (acc.1 + (if isCorrectFor user_answers q then 1 else 0),
   acc.2 ++ [feedbackFor user_answers q])

/-- Round half to even (the tie-breaking rule of Python's `round`) of the
fraction `n / d` for a positive denominator `d`, computed with integer
arithmetic so that it evaluates inside the kernel: `n / d` is the floor
and `2*(n - n/d*d) < d` says the fractional part is below one half. -/
def rheInt (n d : ℤ) : ℤ :=
  if 2 * (n - n / d * d) < d then n / d
  else if d < 2 * (n - n / d * d) then n / d + 1
  else if (n / d) % 2 = 0 then n / d else n / d + 1

/-- Round half to even of a rational. -/
def roundHalfEven (q : ℚ) : ℤ :=
  rheInt q.num (q.den : ℤ)

/-- Model of Python's `round(x, 2)` on the exact rational value (the float
the code rounds represents this rational up to representation error, which
no claim input reaches): `q * 100` is the fraction `(100 * q.num) / q.den`,
rounded half-to-even and divided by 100 again. -/
def round2 (q : ℚ) : ℚ :=
  Rat.divInt (rheInt (100 * q.num) (q.den : ℤ)) 100

/-- Proof-side characterization of `rheInt` through the floor function. -/
def rheSpecQ (q : ℚ) : ℤ :=
  if q - ⌊q⌋ < 1 / 2 then ⌊q⌋
  else if 1 / 2 < q - ⌊q⌋ then ⌊q⌋ + 1
  else if ⌊q⌋ % 2 = 0 then ⌊q⌋ else ⌊q⌋ + 1

/-- `calculate_score_and_feedback(quiz_questions, user_answers)`:
`score = round((correct_count / total_questions) * 100 if total_questions > 0 else 0, 2)`. -/
def calculate_score_and_feedback (quiz_questions : List Question)
    (user_answers : List QuizAnswer) : ScoreResult :=
  let total_questions := quiz_questions.length
  let cf := quiz_questions.foldl (scoreStep user_answers) (0, [])
  let score : ℚ :=
    if total_questions > 0 then Rat.divInt ((cf.1 : ℤ) * 100) (total_questions : ℤ)
    else ((0 : ℕ) : ℚ)
  { score := round2 score
    correct_count := cf.1
    total_questions := total_questions
    feedback := cf.2 }

/-- Keyed lookup in the field list (first binding, as `find?`). -/
def JsonFields.getKey : JsonFields → String → Option Json
  | .nil, _ => none
  | .cons k v tl, key => if k == key then some v else JsonFields.getKey tl key

/-- `d[k]` lookup for a parsed object. -/
def Json.getKey (j : Json) (k : String) : Option Json :=
  match j with
  | .obj fields => fields.getKey k
  | _ => none

/-! ## Content generators

Embeddings of `generate_notes_with_ai` (`src/document_service/main.py`,
lines 125-173) and `generate_quiz_with_ai` (`src/quiz_service/main.py`,
lines 99-193).  `configured` stands for the module-level `model` being set
(the `GEMINI_API_KEY` branch); `resp` is the outcome of the external
completion call `model.generate_content(prompt)` together with the `.text`
access — `.error e` models a raised exception.  Prompt construction only
feeds that external call, so the prompt string does not appear in the
result. -/

/-- The placeholder notes dict returned when the AI model is not
configured. -/
def notesPlaceholder (content : String) : Json :=
  Json.mkObj
    [("summary", .str "AI summarization not available. Please configure GEMINI_API_KEY."),
     ("notes", .str (if pyLen content > 500 then pyTake content 500 ++ "..." else content)),
     ("key_points", Json.mkArr [.str "Configuration required"])]

/-- The notes generator's inner `except:` fallback: first line of the
first 300 characters as summary, the whole response as notes, and up to
ten stripped lines starting with a dash or the (mojibake) bullet marker
that appears verbatim in the source. -/
def degradedNotesArtifact (text : String) : Json :=
  Json.mkObj
    [("summary", .str ((pySplitOn '\n' (pyTake text 300)).headD "")),
     ("notes", .str text),
     ("key_points", Json.mkArr
       (((((pySplitOn '\n' text).map pyStrip).filter
           (fun l => pyStartswith l "-" || pyStartswith l "â€¢")).take 10).map Json.str))]

/-- The notes generator's response handling: `result = json.loads(response.text)`
inside `try`, with the bare `except:` synthesizing the degraded artifact. -/
def notesResponseHandling (text : String) : Json :=
  match json_loads text with
  | some result => result
  | none => degradedNotesArtifact text

/-- The notes generator's outer `except Exception` fallback built from the
document content and the error message. -/
def notesOuterFallback (content : String) (e : String) : Json :=
  let lines := pySplitOn '\n' content
  Json.mkObj
    [("summary", .str ("Document contains " ++ toString lines.length ++
        " lines of text. AI summarization failed: " ++ e)),
     ("notes", .str (if pyLen content > 1000 then pyTake content 1000 ++ "..." else content)),
     ("key_points", Json.mkArr
       ((((lines.map pyStrip).filter (fun l => pyLen l > 20)).take 5).map Json.str))]

/-- `generate_notes_with_ai(content, filename)`.  The `Except` return type
would expose any exception escaping the Python function; the theorems show
the result is always `.ok`. -/
def generate_notes_with_ai (configured : Bool) (resp : Except String String)
    (content filename : String) : Except String Json :=
  if !configured then .ok (notesPlaceholder content)
  else
    match resp with
    | .ok text => .ok (notesResponseHandling text)
    | .error e => .ok (notesOuterFallback content e)

/-- The placeholder quiz returned when the AI model is not configured. -/
def quizNotConfigured : Json :=
  Json.mkObj [("questions", Json.mkArr [Json.mkObj
    [("id", .num 1), ("type", .str "multiple_choice"),
     ("question", .str "AI not configured. Please add GEMINI_API_KEY."),
     ("options", Json.mkArr [.str "A", .str "B", .str "C", .str "D"]),
     ("correct_answer", .str "A"), ("explanation", .str "Configuration required")]])]

/-- The quiz generator's Markdown code-fence stripping, exactly the
sequence of slices guarded by `startswith`/`endswith` in the source
(`text.strip()`, drop a leading ```` ```json ````, drop a leading
```` ``` ````, drop a trailing ```` ``` ````, `strip()` again). -/
def stripFences (text : String) : String :=
  let t0 := pyStrip text
  let t1 := if pyStartswith t0 "```json" then pyDrop t0 7 else t0
  let t2 := if pyStartswith t1 "```" then pyDrop t1 3 else t1
  let t3 := if pyEndswith t2 "```" then pyDropRight t2 3 else t2
  pyStrip t3

/-- The quiz generator's `except json.JSONDecodeError` fallback: a single
short-answer question whose explanation is the first 500 characters of the
raw response. -/
def degradedQuizArtifact (text : String) : Json :=
  Json.mkObj [("questions", Json.mkArr [Json.mkObj
    [("id", .num 1), ("type", .str "short_answer"),
     ("question", .str "What are the key concepts from this document?"),
     ("correct_answer", .str "See document content"),
     ("explanation", .str (pyTake text 500))]])]

/-- The quiz generator's response handling: strip code fences, then one
`json.loads` attempt, then the degraded fallback. -/
def quizResponseHandling (text : String) : Json :=
  match json_loads (stripFences text) with
  | some quiz_data => quiz_data
  | none => degradedQuizArtifact text

/-- The quiz generator's outer `except Exception` fallback. -/
def quizOuterFallback (e : String) : Json :=
  Json.mkObj [("questions", Json.mkArr [Json.mkObj
    [("id", .num 1), ("type", .str "multiple_choice"),
     ("question", .str ("Quiz generation failed: " ++ e)),
     ("options", Json.mkArr [.str "Error occurred"]),
     ("correct_answer", .str "Error occurred"),
     ("explanation", .str "Please try again")]])]

/-- `generate_quiz_with_ai(document_content, document_title, num_questions,
question_types)`; the last two arguments only shape the prompt fed to the
external completion call. -/
def generate_quiz_with_ai (configured : Bool) (resp : Except String String)
    (document_content document_title : String) (num_questions : Nat)
    (question_types : List String) : Except String Json :=
  if !configured then .ok quizNotConfigured
  else
    match resp with
    | .ok text => .ok (quizResponseHandling text)
    | .error e => .ok (quizOuterFallback e)

/-- Is the value a dict carrying the requested notes shape
(`summary`/`notes`/`key_points` keys)? -/
def isNotesArtifact (j : Json) : Bool :=
  j.hasKey "summary" && j.hasKey "notes" && j.hasKey "key_points"

/-- Is the value a dict whose `questions` key holds a list? -/
def isQuizArtifact (j : Json) : Bool :=
  match j.getKey "questions" with
  | some (.arr _) => true
  | _ => false

/-- Modelled from the spec (§4.2): the claimed three-tier recovery chain —
parse the raw response; on failure strip code-fence wrapping and retry the
parse once; on failure synthesize the degraded artifact. -/
def specThreeTier (degraded : String → Json) (resp : String) : Json :=
  match json_loads resp with
  | some j => j
  | none =>
    match json_loads (stripFences resp) with
    | some j => j
    | none => degraded resp

/-! ## Text extraction

Embedding of `extract_text_from_pdf` and `extract_text_from_txt`
(`src/document_service/main.py`, lines 84-123).  A PDF library run either
yields the per-page extraction results or raises after having processed a
prefix of the pages; `MethodRun` records both shapes, because the source
keeps the text accumulated before an exception. -/

/-- Outcome of one extraction library over a document's pages. -/
inductive MethodRun (α : Type) where
  | ok (pages : List α)
  | fail (pagesBefore : List α) (err : String)
deriving Repr

/-- The pdfplumber loop: `page.extract_text()` may return `None`, and the
`if page_text:` truthiness check also skips an empty string. -/
def pdfplumberText (start : String) (pages : List (Option String)) : String :=
  pages.foldl
    (fun text p =>
      match p with
      | some page_text => if page_text ≠ "" then text ++ page_text ++ "\n\n" else text
      | none => text)
    start

/-- The PyPDF2 loop: `text += page.extract_text() + "\n\n"` with no
truthiness check. -/
def pypdf2Text (start : String) (pages : List String) : String :=
  pages.foldl (fun text page_text => text ++ page_text ++ "\n\n") start

/-- `extract_text_from_pdf(file_bytes)`, parameterized by the two library
runs on those bytes.  pdfplumber is attempted first; only when it raises is
PyPDF2 consulted (the partial text accumulated before the exception is
kept, as in the source); if PyPDF2 also raises, the
`HTTPException(400, "Could not extract text from PDF")` is the `.error`. -/
def extract_text_from_pdf (pdfplumberRun : MethodRun (Option String))
    (pypdf2Run : MethodRun String) : Except String String :=
  match pdfplumberRun with
  | .ok pages => .ok (pyStrip (pdfplumberText "" pages))
  | .fail before _ =>
    match pypdf2Run with
    | .ok pages2 => .ok (pyStrip (pypdf2Text (pdfplumberText "" before) pages2))
    | .fail _ _ => .error "Could not extract text from PDF"

/-! ### UTF-8 decoding with `errors='ignore'`

`bytes.decode('utf-8', errors='ignore')` drops ill-formed byte sequences
and never raises.  `utf8DecodeOne` accepts exactly the well-formed UTF-8
sequences (no overlongs, no surrogates, max U+10FFFF); on an ill-formed
head the decoder skips one byte, which produces the same output as
CPython's maximal-subpart skipping because no byte that can follow a valid
lead can begin a well-formed sequence. -/

/-- Is the byte a UTF-8 continuation byte (0x80-0xBF)? -/
def isContByte (b : Nat) : Bool :=
  128 ≤ b && b < 192

/-- Decode one well-formed UTF-8 sequence from the head: the code point
and the remaining bytes. -/
def utf8DecodeOne (bs : List Nat) : Option (Nat × List Nat) :=
  match bs with
  | [] => none
  | b :: rest =>
    if b < 128 then some (b, rest)
    else if 194 ≤ b && b ≤ 223 then
      match rest with
      | b1 :: rest1 =>
        if isContByte b1 then some ((b - 192) * 64 + (b1 - 128), rest1) else none
      | [] => none
    else if 224 ≤ b && b ≤ 239 then
      match rest with
      | b1 :: b2 :: rest2 =>
        let lo1 := if b = 224 then 160 else 128
        let hi1 := if b = 237 then 159 else 191
        if (lo1 ≤ b1 && b1 ≤ hi1) && isContByte b2 then
          some ((b - 224) * 4096 + (b1 - 128) * 64 + (b2 - 128), rest2)
        else none
      | _ => none
    else if 240 ≤ b && b ≤ 244 then
      match rest with
      | b1 :: b2 :: b3 :: rest3 =>
        let lo1 := if b = 240 then 144 else 128
        let hi1 := if b = 244 then 143 else 191
        if ((lo1 ≤ b1 && b1 ≤ hi1) && isContByte b2) && isContByte b3 then
          some ((b - 240) * 262144 + (b1 - 128) * 4096 + (b2 - 128) * 64 + (b3 - 128), rest3)
        else none
      | _ => none
    else none

/-- Decode a byte list, skipping over ill-formed bytes; the fuel is the
byte count, enough because every step consumes at least one byte. -/
def utf8Ignore : Nat → List Nat → List Char
  | 0, _ => []
  | _ + 1, [] => []
  | fuel + 1, b :: rest =>
    match utf8DecodeOne (b :: rest) with
    | some (cp, rem) => Char.ofNat cp :: utf8Ignore fuel rem
    | none => utf8Ignore fuel rest

/-- Model of `file_bytes.decode('utf-8', errors='ignore')`. -/
def utf8DecodeIgnore (file_bytes : List Nat) : String :=
  ⟨utf8Ignore file_bytes.length file_bytes⟩

/-- `extract_text_from_txt(file_bytes)`: decode tolerantly, then `strip()`.
The source wraps this in `try/except`, but a bytes decode with
`errors='ignore'` cannot raise, so the handler is unreachable and the
function totally returns the stripped decode. -/
def extract_text_from_txt (file_bytes : List Nat) : String :=
  pyStrip (utf8DecodeIgnore file_bytes)

/-! ## The background unit of work

Embedding of `process_document_async` (`src/document_service/main.py`,
lines 175-251).  `send_event` (`src/common/kafka_producer.py`) catches any
publish error internally and returns normally, so an event publication is
an unconditional effect.  The trace records, in program order, the external
effects the unit of work performed; the final `Except` would expose an
exception escaping the function (which can happen only if the error-path
database update itself raises inside the `except` handler). -/

/-- External effects of the background unit of work, in program order. -/
inductive Effect where
  /-- The structured-store write block once a connection was obtained: the
  `UPDATE documents ... processed = TRUE`, the `INSERT INTO document_notes`
  and the commit, with the stored content preview. -/
  | dbNotesWrite (content_preview : String)
  /-- The object-store write of the notes payload (`notes/{id}_notes.json`). -/
  | s3PutNotes (payload : Json)
  /-- `send_event("document.processed", ...)`. -/
  | eventDocumentProcessed
  /-- `send_event("notes.generated", ...)`. -/
  | eventNotesGenerated
  /-- The error-path `UPDATE documents SET processed = FALSE,
  content_preview = 'Error: ...'`. -/
  | dbErrorMark (content_preview : String)
deriving DecidableEq, Repr

/-- The `try` body of `process_document_async`: extraction dispatch on
`file_type`, note generation, the structured-store write (skipped silently
when no connection; **not** locally guarded, so a write failure escapes to
the outer handler), the object-store write, and the two event
publications.  Returns the effects performed and `none`, or the effects
performed before an exception `e` escaped the body. -/
def processBody (file_type : String)
    (extractOutcome : Except String String)
    (configured : Bool) (aiResp : Except String String) (filename : String)
    (notesConn : Option (Except String Unit))
    (s3Put : Except String Unit) : List Effect × Option String :=
  let contentRes : Except String String :=
    if file_type = "pdf" then extractOutcome
    else if file_type = "docx" ∨ file_type = "doc" then extractOutcome
    else if file_type = "txt" then extractOutcome
    else .ok "Unsupported file type"
  match contentRes with
  | .error e => ([], some e)
  | .ok content =>
    match generate_notes_with_ai configured aiResp content filename with
    | .error e => ([], some e)
    | .ok ai_notes =>
      let dbStep : List Effect × Option String :=
        match notesConn with
        | none => ([], none)
        | some (.ok _) => ([.dbNotesWrite (pyTake content 500)], none)
        | some (.error e) => ([.dbNotesWrite (pyTake content 500)], some e)
      match dbStep with
      | (fx, some e) => (fx, some e)
      | (fx, none) =>
        match s3Put with
        | .error e => (fx ++ [.s3PutNotes ai_notes], some e)
        | .ok _ =>
          (fx ++ [.s3PutNotes ai_notes, .eventDocumentProcessed, .eventNotesGenerated],
           none)

/-- `process_document_async(...)`: run the body; on an escaped exception
the `except` handler obtains a fresh connection (skipping silently when
unavailable) and overwrites the document preview with the error marker.
An exception raised by that error-path write itself escapes the function
(`.error`). -/
def process_document_async (file_type : String)
    (extractOutcome : Except String String)
    (configured : Bool) (aiResp : Except String String) (filename : String)
    (notesConn : Option (Except String Unit))
    (s3Put : Except String Unit)
    (errConn : Option (Except String Unit)) : List Effect × Except String Unit :=
  match processBody file_type extractOutcome configured aiResp filename notesConn s3Put with
  | (fx, none) => (fx, .ok ())
  | (fx, some e) =>
    match errConn with
    | none => (fx, .ok ())
    | some (.ok _) => (fx ++ [.dbErrorMark ("Error: " ++ e)], .ok ())
    | some (.error e2) => (fx ++ [.dbErrorMark ("Error: " ++ e)], .error e2)

/-! ## Conversation context assembly

Embedding of `get_conversation_context` (`src/chat_service/main.py`,
lines 137-154).  The stored rows of a conversation are given in
chronological order (the table's `timestamp` ordering with insertion-order
ties, per the data model); the query `ORDER BY timestamp DESC LIMIT %s`
reads the most recent `limit` of them newest-first, and the comprehension
over `reversed(rows)` re-reverses them. -/

/-- One `chat_history` row as the context assembler returns it. -/
structure StoredMessage where
  role : String
  message : String
deriving DecidableEq, Repr

/-- `get_conversation_context(conversation_id, limit)`: empty when no
database connection, otherwise the `DESC LIMIT` read re-reversed to
chronological order. -/
def get_conversation_context (conn : Bool) (history : List StoredMessage)
    (limit : Nat) : List StoredMessage :=
  if !conn then []
  else
    let rows := history.reverse.take limit
    rows.reverse

/-! ## Scorer lemmas -/

theorem scoreLoop_eq (user_answers : List QuizAnswer) (qs : List Question)
    (c : Nat) (fb : List FeedbackEntry) :
    qs.foldl (scoreStep user_answers) (c, fb) =
      (c + (qs.filter (isCorrectFor user_answers)).length,
       fb ++ qs.map (feedbackFor user_answers)) := by
  induction qs generalizing c fb with
  | nil => simp
  | cons q qs ih =>
    simp only [List.foldl_cons, scoreStep, List.filter_cons, List.map_cons]
    rw [ih]
    by_cases h : isCorrectFor user_answers q <;>
      simp [h, Prod.ext_iff, List.append_assoc] <;> omega

theorem feedback_eq (qs : List Question) (as : List QuizAnswer) :
    (calculate_score_and_feedback qs as).feedback = qs.map (feedbackFor as) := by
  simp [calculate_score_and_feedback, scoreLoop_eq]

theorem correct_count_eq (qs : List Question) (as : List QuizAnswer) :
    (calculate_score_and_feedback qs as).correct_count =
      (qs.filter (isCorrectFor as)).length := by
  simp [calculate_score_and_feedback, scoreLoop_eq]

theorem total_questions_eq (qs : List Question) (as : List QuizAnswer) :
    (calculate_score_and_feedback qs as).total_questions = qs.length := by
  simp [calculate_score_and_feedback]

theorem score_eq (qs : List Question) (as : List QuizAnswer) :
    (calculate_score_and_feedback qs as).score =
      round2 (if qs.length > 0 then
          Rat.divInt (((qs.filter (isCorrectFor as)).length : ℤ) * 100) (qs.length : ℤ)
        else ((0 : ℕ) : ℚ)) := by
  simp [calculate_score_and_feedback, scoreLoop_eq]

/-! ## Rounding lemmas: `rheInt` really is round-half-to-even -/

theorem frac_lt_half_iff (n d f : ℤ) (hd : 0 < d) :
    ((n : ℚ) / (d : ℚ) - (f : ℚ) < 1 / 2) ↔ 2 * (n - f * d) < d := by
  have hd0 : (0 : ℚ) < (d : ℚ) := by exact_mod_cast hd
  rw [sub_lt_iff_lt_add, div_lt_iff₀ hd0]
  have hring : (1 / 2 + (f : ℚ)) * (d : ℚ) = (d : ℚ) / 2 + (f : ℚ) * (d : ℚ) := by ring
  rw [hring]
  constructor
  · intro h
    have h2 : 2 * (n : ℚ) < (d : ℚ) + 2 * ((f : ℚ) * (d : ℚ)) := by linarith
    have h3 : (2 * n : ℤ) < d + 2 * (f * d) := by exact_mod_cast h2
    linarith
  · intro h
    have h2 : (2 * n : ℤ) < d + 2 * (f * d) := by linarith
    have h3 : 2 * (n : ℚ) < (d : ℚ) + 2 * ((f : ℚ) * (d : ℚ)) := by exact_mod_cast h2
    linarith

theorem half_lt_frac_iff (n d f : ℤ) (hd : 0 < d) :
    ((1 : ℚ) / 2 < (n : ℚ) / (d : ℚ) - (f : ℚ)) ↔ d < 2 * (n - f * d) := by
  have hd0 : (0 : ℚ) < (d : ℚ) := by exact_mod_cast hd
  rw [lt_sub_iff_add_lt, lt_div_iff₀ hd0]
  have hring : (1 / 2 + (f : ℚ)) * (d : ℚ) = (d : ℚ) / 2 + (f : ℚ) * (d : ℚ) := by ring
  rw [hring]
  constructor
  · intro h
    have h2 : (d : ℚ) + 2 * ((f : ℚ) * (d : ℚ)) < 2 * (n : ℚ) := by linarith
    have h3 : (d + 2 * (f * d) : ℤ) < 2 * n := by exact_mod_cast h2
    linarith
  · intro h
    have h2 : (d + 2 * (f * d) : ℤ) < 2 * n := by linarith
    have h3 : (d : ℚ) + 2 * ((f : ℚ) * (d : ℚ)) < 2 * (n : ℚ) := by exact_mod_cast h2
    linarith

theorem floor_intCast_div_intCast (n d : ℤ) (hd : 0 < d) :
    ⌊(n : ℚ) / (d : ℚ)⌋ = n / d := by
  have h1 : ((d.toNat : ℕ) : ℤ) = d := Int.toNat_of_nonneg hd.le
  calc ⌊(n : ℚ) / (d : ℚ)⌋ = ⌊(n : ℚ) / ((d.toNat : ℕ) : ℚ)⌋ := by
        rw [show ((d.toNat : ℕ) : ℚ) = (d : ℚ) by exact_mod_cast congrArg (Int.cast : ℤ → ℚ) h1]
    _ = n / ((d.toNat : ℕ) : ℤ) := Rat.floor_intCast_div_natCast n d.toNat
    _ = n / d := by rw [h1]

theorem rheInt_eq_rheSpecQ (n d : ℤ) (hd : 0 < d) :
    rheInt n d = rheSpecQ ((n : ℚ) / (d : ℚ)) := by
  have hfl : ⌊(n : ℚ) / (d : ℚ)⌋ = n / d := floor_intCast_div_intCast n d hd
  unfold rheInt rheSpecQ
  rw [hfl]
  simp only [frac_lt_half_iff n d (n / d) hd, half_lt_frac_iff n d (n / d) hd]

theorem rheSpecQ_mono {a b : ℚ} (h : a ≤ b) : rheSpecQ a ≤ rheSpecQ b := by
  rcases lt_or_eq_of_le (Int.floor_le_floor h) with hf | hf
  · have h1 : rheSpecQ a ≤ ⌊a⌋ + 1 := by unfold rheSpecQ; split_ifs <;> omega
    have h2 : ⌊b⌋ ≤ rheSpecQ b := by unfold rheSpecQ; split_ifs <;> omega
    omega
  · unfold rheSpecQ
    rw [← hf]
    split_ifs <;> first | omega | linarith

theorem round2_mono {q r : ℚ} (h : q ≤ r) : round2 q ≤ round2 r := by
  unfold round2
  have hq : ((100 * q.num : ℤ) : ℚ) / ((q.den : ℕ) : ℚ) = 100 * q := by
    push_cast
    rw [mul_div_assoc, Rat.num_div_den]
  have hr : ((100 * r.num : ℤ) : ℚ) / ((r.den : ℕ) : ℚ) = 100 * r := by
    push_cast
    rw [mul_div_assoc, Rat.num_div_den]
  have hdq : (0 : ℤ) < (q.den : ℤ) := by exact_mod_cast q.den_pos
  have hdr : (0 : ℤ) < (r.den : ℤ) := by exact_mod_cast r.den_pos
  have key : rheInt (100 * q.num) (q.den : ℤ) ≤ rheInt (100 * r.num) (r.den : ℤ) := by
    rw [rheInt_eq_rheSpecQ _ _ hdq, rheInt_eq_rheSpecQ _ _ hdr]
    apply rheSpecQ_mono
    rw [show (((q.den : ℤ) : ℚ)) = ((q.den : ℕ) : ℚ) by push_cast; ring]
    rw [show (((r.den : ℤ) : ℚ)) = ((r.den : ℕ) : ℚ) by push_cast; ring]
    rw [hq, hr]
    linarith
  rw [Rat.divInt_eq_div, Rat.divInt_eq_div]
  have h100 : (0 : ℚ) < 100 := by norm_num
  exact (div_le_div_right h100).mpr (by exact_mod_cast key)

/-! ## Scorer extensionality and counting helpers -/

theorem calculate_ext (qs : List Question) (as₁ as₂ : List QuizAnswer)
    (h : ∀ p ∈ qs, answer_map as₁ p.id = answer_map as₂ p.id) :
    calculate_score_and_feedback qs as₁ = calculate_score_and_feedback qs as₂ := by
  have hfb : ∀ p ∈ qs, feedbackFor as₁ p = feedbackFor as₂ p := by
    intro p hp
    unfold feedbackFor isCorrectFor userAnswerFor
    rw [h p hp]
  have hcor : ∀ p ∈ qs, isCorrectFor as₁ p = isCorrectFor as₂ p := by
    intro p hp
    unfold isCorrectFor userAnswerFor
    rw [h p hp]
  unfold calculate_score_and_feedback
  rw [scoreLoop_eq, scoreLoop_eq, List.filter_congr hcor, List.map_congr_left hfb]

theorem filter_length_mono {α : Type} (l : List α) (p q : α → Bool)
    (h : ∀ a ∈ l, p a = true → q a = true) :
    (l.filter p).length ≤ (l.filter q).length := by
  induction l with
  | nil => simp
  | cons a l ih =>
    have ih' := ih (fun x hx hpx => h x (List.mem_cons_of_mem a hx) hpx)
    simp only [List.filter_cons]
    by_cases hp : p a = true
    · rw [if_pos hp, if_pos (h a (List.mem_cons_self a l) hp)]
      simpa using ih'
    · rw [if_neg hp]
      by_cases hq : q a = true
      · rw [if_pos hq]
        calc (l.filter p).length ≤ (l.filter q).length := ih'
          _ ≤ (a :: l.filter q).length := by simp
      · rw [if_neg hq]
        exact ih'

theorem answer_map_append_irrelevant (as extra : List QuizAnswer) (i : Int)
    (h : ∀ a ∈ extra, a.question_id ≠ i) :
    answer_map (as ++ extra) i = answer_map as i := by
  unfold answer_map
  rw [List.reverse_append]
  have hnone : extra.reverse.find? (fun a => a.question_id == i) = none := by
    rw [List.find?_eq_none]
    intro a ha
    simpa using h a (List.mem_reverse.mp ha)
  rw [List.find?_append, hnone]
  simp

/-! ## Generator totality helpers -/

theorem generate_notes_ok (configured : Bool) (resp : Except String String)
    (content filename : String) :
    ∃ j : Json, generate_notes_with_ai configured resp content filename = .ok j ∧
      (isNotesArtifact j = true ∨ ∃ t, resp = .ok t ∧ json_loads t = some j) := by
  cases configured with
  | false => exact ⟨notesPlaceholder content, rfl, Or.inl rfl⟩
  | true =>
    cases resp with
    | error e => exact ⟨notesOuterFallback content e, rfl, Or.inl rfl⟩
    | ok t =>
      cases hj : json_loads t with
      | some j =>
        refine ⟨j, ?_, Or.inr ⟨t, rfl, hj⟩⟩
        simp [generate_notes_with_ai, notesResponseHandling, hj]
      | none =>
        refine ⟨degradedNotesArtifact t, ?_, Or.inl rfl⟩
        simp [generate_notes_with_ai, notesResponseHandling, hj]

theorem generate_quiz_ok (configured : Bool) (resp : Except String String)
    (document_content document_title : String) (num_questions : Nat)
    (question_types : List String) :
    ∃ j : Json, generate_quiz_with_ai configured resp document_content document_title
        num_questions question_types = .ok j ∧
      (isQuizArtifact j = true ∨ ∃ t, resp = .ok t ∧ json_loads (stripFences t) = some j) := by
  cases configured with
  | false => exact ⟨quizNotConfigured, rfl, Or.inl rfl⟩
  | true =>
    cases resp with
    | error e => exact ⟨quizOuterFallback e, rfl, Or.inl rfl⟩
    | ok t =>
      cases hj : json_loads (stripFences t) with
      | some j =>
        refine ⟨j, ?_, Or.inr ⟨t, rfl, hj⟩⟩
        simp [generate_quiz_with_ai, quizResponseHandling, hj]
      | none =>
        refine ⟨degradedQuizArtifact t, ?_, Or.inl rfl⟩
        simp [generate_quiz_with_ai, quizResponseHandling, hj]

/-! ## UTF-8 decoder helpers -/

theorem utf8DecodeOne_ascii (b : Nat) (rest : List Nat) (hb : b < 128) :
    utf8DecodeOne (b :: rest) = some (b, rest) := by
  simp [utf8DecodeOne, hb]

theorem utf8DecodeOne_ff (rest : List Nat) :
    utf8DecodeOne (255 :: rest) = none := by
  norm_num [utf8DecodeOne]

theorem utf8Ignore_ascii_append (pre rest : List Nat) (h : ∀ b ∈ pre, b < 128) :
    utf8Ignore (pre ++ rest).length (pre ++ rest) =
      pre.map Char.ofNat ++ utf8Ignore rest.length rest := by
  induction pre with
  | nil => simp
  | cons b pre ih =>
    have hb : b < 128 := h b (List.mem_cons_self b pre)
    have ih' := ih (fun x hx => h x (List.mem_cons_of_mem b hx))
    have hstep : utf8Ignore ((pre ++ rest).length + 1) (b :: (pre ++ rest)) =
        Char.ofNat b :: utf8Ignore (pre ++ rest).length (pre ++ rest) := by
      rw [show utf8Ignore ((pre ++ rest).length + 1) (b :: (pre ++ rest)) =
          (match utf8DecodeOne (b :: (pre ++ rest)) with
           | some (cp, rem) => Char.ofNat cp :: utf8Ignore (pre ++ rest).length rem
           | none => utf8Ignore (pre ++ rest).length (pre ++ rest)) from rfl]
      rw [utf8DecodeOne_ascii b (pre ++ rest) hb]
    simp only [List.cons_append, List.length_cons]
    rw [hstep, ih']
    simp

theorem utf8Ignore_ff_cons (rest : List Nat) :
    utf8Ignore (255 :: rest).length (255 :: rest) = utf8Ignore rest.length rest := by
  rw [show (255 :: rest).length = rest.length + 1 from rfl]
  rw [show utf8Ignore (rest.length + 1) (255 :: rest) =
      (match utf8DecodeOne (255 :: rest) with
       | some (cp, rem) => Char.ofNat cp :: utf8Ignore rest.length rem
       | none => utf8Ignore rest.length rest) from rfl]
  rw [utf8DecodeOne_ff]

/-! ## The claims -/

/-- Claim C1, counterexample: when the completion call returns the valid
JSON text `[]`, both generators return the parsed empty list as-is, which
is not a dict with the summary/notes/key_points keys (resp. not a dict with
a questions list) — the claim that a well-formed artifact is always
returned fails at this input. -/
theorem C1_generators_counterexample :
    generate_notes_with_ai true (.ok "[]") "content" "file.txt" = .ok (Json.mkArr []) ∧
    isNotesArtifact (Json.mkArr []) = false ∧
    generate_quiz_with_ai true (.ok "[]") "content" "file.txt" 5 ["multiple_choice"] =
      .ok (Json.mkArr []) ∧
    isQuizArtifact (Json.mkArr []) = false := by
  refine ⟨by rfl, by rfl, by rfl, by rfl⟩

/-- Claim C1 (amended): the generators are total — for every configuration
flag, completion outcome, input text and title they never raise and return
a value; that value is a well-formed artifact in the not-configured,
completion-error and unparseable-response cases, and otherwise it is
exactly the JSON the response parsed to, returned without shape
validation. -/
theorem C1_generators_total_amended :
    ∀ (configured : Bool) (resp : Except String String)
      (content filename title : String) (num_questions : Nat)
      (question_types : List String),
      (∃ j : Json, generate_notes_with_ai configured resp content filename = .ok j ∧
        (isNotesArtifact j = true ∨ ∃ t, resp = .ok t ∧ json_loads t = some j)) ∧
      (∃ j : Json, generate_quiz_with_ai configured resp content title
          num_questions question_types = .ok j ∧
        (isQuizArtifact j = true ∨ ∃ t, resp = .ok t ∧ json_loads (stripFences t) = some j)) :=
  fun configured resp content filename title nq qt =>
    ⟨generate_notes_ok configured resp content filename,
     generate_quiz_ok configured resp content title nq qt⟩

/-- Claim C2, counterexample: on a fence-wrapped valid JSON response the
claimed three-tier chain strips the fences and returns the parsed notes
object, but the notes generator never strips — it falls straight through to
the degraded artifact. -/
theorem C2_recovery_chain_counterexample :
    notesResponseHandling "```json\n\x7b\"summary\": \"s\", \"notes\": \"n\", \"key_points\": []\x7d\n```" ≠
      specThreeTier degradedNotesArtifact
        "```json\n\x7b\"summary\": \"s\", \"notes\": \"n\", \"key_points\": []\x7d\n```" ∧
    specThreeTier degradedNotesArtifact
        "```json\n\x7b\"summary\": \"s\", \"notes\": \"n\", \"key_points\": []\x7d\n```" =
      Json.mkObj [("summary", .str "s"), ("notes", .str "n"), ("key_points", Json.mkArr [])] ∧
    notesResponseHandling "```json\n\x7b\"summary\": \"s\", \"notes\": \"n\", \"key_points\": []\x7d\n```" =
      degradedNotesArtifact "```json\n\x7b\"summary\": \"s\", \"notes\": \"n\", \"key_points\": []\x7d\n```" := by
  refine ⟨by decide, by decide, by decide⟩

/-- Claim C2 (amended): the notes generator has only two tiers — a single
raw parse whose failure goes directly to the terminal degraded synthesis,
with no fence-stripping retry; the quiz generator strips Markdown fences
before its single parse attempt, which agrees with the claimed three-tier
chain whenever the raw response is not itself valid JSON, and its terminal
fallback is the total degraded artifact. -/
theorem C2_recovery_chain_amended :
    (∀ t : String, json_loads t = none →
        notesResponseHandling t = degradedNotesArtifact t) ∧
    (∀ t : String, json_loads t = none →
        quizResponseHandling t = specThreeTier degradedQuizArtifact t) ∧
    (∀ (t : String) (j : Json), json_loads (stripFences t) = some j →
        quizResponseHandling t = j) ∧
    (∀ t : String, json_loads (stripFences t) = none →
        quizResponseHandling t = degradedQuizArtifact t) := by
  refine ⟨?_, ?_, ?_, ?_⟩
  · intro t h
    unfold notesResponseHandling
    rw [h]
  · intro t h
    unfold specThreeTier
    rw [h]
    rfl
  · intro t j h
    unfold quizResponseHandling
    rw [h]
  · intro t h
    unfold quizResponseHandling
    rw [h]

/-- Claim C2, witness: a non-JSON fenced response goes to the degraded
notes artifact, and on a fence-wrapped quiz response the quiz handler
coincides with the three-tier chain. -/
theorem C2_recovery_chain_witness :
    notesResponseHandling "```not json" = degradedNotesArtifact "```not json" ∧
    quizResponseHandling "```json\n\x7b\"questions\": []\x7d\n```" =
      specThreeTier degradedQuizArtifact "```json\n\x7b\"questions\": []\x7d\n```" :=
  ⟨C2_recovery_chain_amended.1 "```not json" (by decide),
   C2_recovery_chain_amended.2.1 "```json\n\x7b\"questions\": []\x7d\n```" (by decide)⟩

/-- Claim C3, counterexample: with one of three questions answered
correctly the code returns the two-decimal rounding 33.33, not the exact
value 100 × (1/3) the claim states. -/
theorem C3_scorer_counterexample :
    (calculate_score_and_feedback
        [⟨1, "q1", "a", some "e1"⟩, ⟨2, "q2", "b", some "e2"⟩, ⟨3, "q3", "c", some "e3"⟩]
        [⟨1, "a"⟩]).score = Rat.divInt 3333 100 ∧
    (calculate_score_and_feedback
        [⟨1, "q1", "a", some "e1"⟩, ⟨2, "q2", "b", some "e2"⟩, ⟨3, "q3", "c", some "e3"⟩]
        [⟨1, "a"⟩]).correct_count = 1 ∧
    (calculate_score_and_feedback
        [⟨1, "q1", "a", some "e1"⟩, ⟨2, "q2", "b", some "e2"⟩, ⟨3, "q3", "c", some "e3"⟩]
        [⟨1, "a"⟩]).total_questions = 3 ∧
    Rat.divInt 3333 100 ≠ (100 : ℚ) * ((1 : ℚ) / (3 : ℚ)) := by
  refine ⟨by decide, by decide, by decide, ?_⟩
  rw [Rat.divInt_eq_div]
  norm_num

/-- Claim C3 (amended): the scorer counts a question as correct iff the
submitted answer equals the stored correct answer after lowercasing and
trimming both, the feedback is one entry per question in original order
carrying the (normalized) answers and the explanation regardless of
correctness, the empty quiz scores 0, and the returned score is
100 × (correct_count / total_questions) **rounded to two decimal places**
(round-half-even), not the exact ratio. -/
theorem C3_scorer_amended (qs : List Question) (as : List QuizAnswer) :
    ((calculate_score_and_feedback qs as).feedback.length = qs.length ∧
      ∀ (i : Nat) (q : Question), qs[i]? = some q →
        (calculate_score_and_feedback qs as).feedback[i]? = some
          { question_id := q.id
            question := q.question
            user_answer := normalizeAnswer ((answer_map as q.id).getD "")
            correct_answer := normalizeAnswer q.correct_answer
            is_correct :=
              normalizeAnswer ((answer_map as q.id).getD "") == normalizeAnswer q.correct_answer
            explanation := q.explanation.getD "" }) ∧
    (calculate_score_and_feedback qs as).correct_count =
      (qs.filter (isCorrectFor as)).length ∧
    (calculate_score_and_feedback qs as).total_questions = qs.length ∧
    (calculate_score_and_feedback qs as).score =
      round2 ((100 : ℚ) * (((qs.filter (isCorrectFor as)).length : ℚ) / (qs.length : ℚ))) ∧
    (qs = [] → (calculate_score_and_feedback qs as).score = 0) := by
  refine ⟨⟨by simp [feedback_eq], ?_⟩, correct_count_eq qs as, total_questions_eq qs as, ?_, ?_⟩
  · intro i q hq
    rw [feedback_eq, List.getElem?_map, hq]
    rfl
  · rw [score_eq]
    by_cases hlen : qs.length > 0
    · rw [if_pos hlen]
      congr 1
      rw [Rat.divInt_eq_div]
      push_cast
      ring
    · rw [if_neg hlen]
      have h0 : qs.length = 0 := by omega
      rw [h0]
      norm_num
  · intro hnil
    rw [score_eq, hnil]
    simp
    decide

/-- Claim C3, witness: one question with stored answer `A` and submission
`" a "` — the feedback entry carries the normalized answers and the score
pipeline marks it correct. -/
theorem C3_scorer_witness :
    (calculate_score_and_feedback [⟨1, "q", "A", some "e"⟩] [⟨1, " a "⟩]).feedback[0]? =
      some ⟨1, "q", "a", "a", true, "e"⟩ :=
  (C3_scorer_amended [⟨1, "q", "A", some "e"⟩] [⟨1, " a "⟩]).1.2 0 ⟨1, "q", "A", some "e"⟩ rfl

/-- Claim C4, counterexample: extraction and generation succeed, a
structured-store connection is obtained and its write fails — the claim
says the object-store write and the two event publications still execute,
but the trace shows the write attempt followed only by the top-level error
marker: no object-store write, no events. -/
theorem C4_pipeline_counterexample :
    process_document_async "txt" (.ok "hello") false (.ok "resp") "f.txt"
        (some (.error "db down")) (.ok ()) (some (.ok ())) =
      ([.dbNotesWrite "hello", .dbErrorMark "Error: db down"], .ok ()) ∧
    Effect.s3PutNotes (notesPlaceholder "hello") ∉
      [Effect.dbNotesWrite "hello", Effect.dbErrorMark "Error: db down"] ∧
    Effect.eventDocumentProcessed ∉
      [Effect.dbNotesWrite "hello", Effect.dbErrorMark "Error: db down"] ∧
    Effect.eventNotesGenerated ∉
      [Effect.dbNotesWrite "hello", Effect.dbErrorMark "Error: db down"] := by
  refine ⟨by rfl, by decide, by decide, by decide⟩

/-- Claim C4 (amended): a failure of the structured-store write after a
connection is obtained is not caught locally — it aborts the rest of the
unit of work (no object-store write, no event publication) and reaches the
top-level handler, which marks the document with an error preview and
returns normally; only when no structured-store connection could be
obtained is the write skipped silently while the object-store write and
both event publications still execute. -/
theorem C4_pipeline_db_failure_amended :
    (∀ (file_type : String) (extractOutcome : Except String String) (configured : Bool)
        (aiResp : Except String String) (filename e : String)
        (s3Put : Except String Unit) (errConn : Option (Except String Unit)),
      (∀ p : Json, Effect.s3PutNotes p ∉
          (process_document_async file_type extractOutcome configured aiResp filename
            (some (.error e)) s3Put errConn).1) ∧
      Effect.eventDocumentProcessed ∉
        (process_document_async file_type extractOutcome configured aiResp filename
          (some (.error e)) s3Put errConn).1 ∧
      Effect.eventNotesGenerated ∉
        (process_document_async file_type extractOutcome configured aiResp filename
          (some (.error e)) s3Put errConn).1 ∧
      (errConn = some (.ok ()) →
        (∃ msg, Effect.dbErrorMark msg ∈
          (process_document_async file_type extractOutcome configured aiResp filename
            (some (.error e)) s3Put errConn).1) ∧
        (process_document_async file_type extractOutcome configured aiResp filename
          (some (.error e)) s3Put errConn).2 = .ok ())) ∧
    (∀ (content : String) (configured : Bool) (aiResp : Except String String)
        (filename : String) (errConn : Option (Except String Unit)),
      ∃ payload : Json,
        process_document_async "txt" (.ok content) configured aiResp filename
            none (.ok ()) errConn =
          ([.s3PutNotes payload, .eventDocumentProcessed, .eventNotesGenerated], .ok ())) := by
  constructor
  · intro file_type extractOutcome configured aiResp filename e s3Put errConn
    have hbody : ∃ fx err, processBody file_type extractOutcome configured aiResp filename
        (some (.error e)) s3Put = (fx, some err) ∧
        (∀ p : Json, Effect.s3PutNotes p ∉ fx) ∧
        Effect.eventDocumentProcessed ∉ fx ∧ Effect.eventNotesGenerated ∉ fx := by
      unfold processBody
      cases hcr : (if file_type = "pdf" then extractOutcome
        else if file_type = "docx" ∨ file_type = "doc" then extractOutcome
        else if file_type = "txt" then extractOutcome
        else .ok "Unsupported file type") with
      | error e' => exact ⟨[], e', by simp, by simp, by simp, by simp⟩
      | ok content =>
        obtain ⟨j, hj, _⟩ := generate_notes_ok configured aiResp content filename
        dsimp only
        rw [hj]
        exact ⟨[.dbNotesWrite (pyTake content 500)], e, rfl, by simp, by simp, by simp⟩
    obtain ⟨fx, err, hb, hs3, hdoc, hnotes⟩ := hbody
    unfold process_document_async
    rw [hb]
    cases errConn with
    | none => exact ⟨hs3, hdoc, hnotes, by intro hc; cases hc⟩
    | some w =>
      cases w with
      | ok u =>
        cases u
        refine ⟨by simpa using hs3, by simpa using hdoc, by simpa using hnotes, ?_⟩
        intro _
        exact ⟨⟨"Error: " ++ err, by simp⟩, rfl⟩
      | error e2 =>
        refine ⟨by simpa using hs3, by simpa using hdoc, by simpa using hnotes, ?_⟩
        intro hc
        cases hc
  · intro content configured aiResp filename errConn
    obtain ⟨j, hj, _⟩ := generate_notes_ok configured aiResp content filename
    refine ⟨j, ?_⟩
    unfold process_document_async processBody
    dsimp only
    rw [if_neg (by decide : ¬("txt" = "pdf")),
        if_neg (by decide : ¬("txt" = "docx" ∨ "txt" = "doc")),
        if_pos (rfl : "txt" = "txt")]
    dsimp only
    rw [hj]
    simp

/-- Claim C4, witness: at the counterexample input, the
document-processed event indeed does not execute. -/
theorem C4_pipeline_witness :
    Effect.eventDocumentProcessed ∉
      (process_document_async "txt" (.ok "hello") false (.ok "resp") "f.txt"
        (some (.error "db down")) (.ok ()) (some (.ok ()))).1 :=
  (C4_pipeline_db_failure_amended.1 "txt" (.ok "hello") false (.ok "resp") "f.txt" "db down"
    (.ok ()) (some (.ok ()))).2.1

/-- Claim C5, counterexample: pdfplumber succeeds but every page yields no
usable text — the code returns the empty string without consulting PyPDF2,
although the fallback would have produced text. -/
theorem C5_pdf_fallback_counterexample :
    extract_text_from_pdf (.ok [none]) (.ok ["hello"]) = .ok "" ∧
    extract_text_from_pdf (.ok [none]) (.ok ["hello"]) ≠ .ok "hello" := by
  refine ⟨by rfl, fun h => absurd (Except.ok.inj h) (by decide)⟩

/-- Claim C5 (amended): the layout-aware method is attempted first and the
simpler method is consulted **only when the first method throws** — a
successful first run fixes the result whatever the second method would
return, even when it yielded no usable text; when the first throws and the
second succeeds the pipeline gets the fallback text (appended to the
partial text accumulated before the exception), and only when both throw
is the fatal extraction error signalled. -/
theorem C5_pdf_fallback_amended :
    (∀ (pages : List (Option String)) (p2 p2' : MethodRun String),
        extract_text_from_pdf (.ok pages) p2 = extract_text_from_pdf (.ok pages) p2') ∧
    (∀ (before : List (Option String)) (err : String) (pages2 : List String),
        extract_text_from_pdf (.fail before err) (.ok pages2) =
          .ok (pyStrip (pypdf2Text (pdfplumberText "" before) pages2))) ∧
    (∀ (before : List (Option String)) (err : String)
        (before2 : List String) (err2 : String),
        extract_text_from_pdf (.fail before err) (.fail before2 err2) =
          .error "Could not extract text from PDF") :=
  ⟨fun _ _ _ => rfl, fun _ _ _ => rfl, fun _ _ _ _ => rfl⟩

/-- Claim C6 (confirmed): with a store connection the context assembler
returns at most `limit` messages, namely the chronological suffix of the
history (the most recent `limit`, oldest first); without a connection it
returns the empty list. -/
theorem C6_context_assembler :
    ∀ (history : List StoredMessage) (limit : Nat),
      (get_conversation_context true history limit).length ≤ limit ∧
      get_conversation_context true history limit =
        history.drop (history.length - limit) ∧
      get_conversation_context false history limit = [] := by
  intro history limit
  refine ⟨?_, ?_, rfl⟩
  · unfold get_conversation_context
    simp [List.length_take]
  · unfold get_conversation_context
    simp only [Bool.not_true, Bool.false_eq_true, if_false]
    rw [← List.rtake_eq_reverse_take_reverse]
    rfl

/-- Claim C7, counterexample: the byte 255 is undecodable, yet the output
for `hi` followed by 255 is plain `hi` — the byte is dropped
(`errors='ignore'`), no replacement marker U+FFFD appears in its place. -/
theorem C7_txt_decode_counterexample :
    extract_text_from_txt [104, 105, 255] = "hi" ∧
    ¬ (Char.ofNat 65533 ∈ "hi".toList) := by
  refine ⟨by rfl, by decide⟩

/-- Claim C7 (amended): txt extraction never fails — ASCII byte lists
decode to themselves, and an undecodable byte such as 255 is dropped from
the output rather than substituted or raised on. -/
theorem C7_txt_decode_amended :
    (∀ bs : List Nat, (∀ b ∈ bs, b < 128) →
        utf8DecodeIgnore bs = ⟨bs.map Char.ofNat⟩) ∧
    (∀ pre post : List Nat, (∀ b ∈ pre, b < 128) →
        extract_text_from_txt (pre ++ 255 :: post) = extract_text_from_txt (pre ++ post)) := by
  constructor
  · intro bs h
    unfold utf8DecodeIgnore
    have h2 := utf8Ignore_ascii_append bs [] h
    simp only [List.append_nil] at h2
    simp [h2, utf8Ignore]
  · intro pre post h
    unfold extract_text_from_txt utf8DecodeIgnore
    rw [utf8Ignore_ascii_append pre (255 :: post) h,
        utf8Ignore_ascii_append pre post h, utf8Ignore_ff_cons]

/-- Claim C7, witness: dropping the undecodable byte 255 inside
`hi!` leaves extraction unchanged. -/
theorem C7_txt_decode_witness :
    extract_text_from_txt [104, 105, 255, 33] = extract_text_from_txt [104, 105, 33] :=
  C7_txt_decode_amended.2 [104, 105] [33] (by decide)

/-- Claim C8, counterexample: with duplicated question ids (which the data
model forbids but the claim, quantifying over every question list, does not
exclude) replacing the single stored answer for id 1 — previously incorrect
for the first question — by that question's stored correct answer lowers
the score from 66.67 to 33.33: the other two questions with the same id
stop matching. -/
theorem C8_scoring_counterexample :
    isCorrectFor [⟨1, "b"⟩] ⟨1, "q1", "a", none⟩ = false ∧
    answer_map [⟨1, "a"⟩] 1 = some "a" ∧
    (calculate_score_and_feedback
        [⟨1, "q1", "a", none⟩, ⟨1, "q2", "b", none⟩, ⟨1, "q3", "b", none⟩]
        [⟨1, "a"⟩]).score <
      (calculate_score_and_feedback
        [⟨1, "q1", "a", none⟩, ⟨1, "q2", "b", none⟩, ⟨1, "q3", "b", none⟩]
        [⟨1, "b"⟩]).score := by
  refine ⟨by decide, by decide, by decide⟩

/-- Claim C8 (amended): scoring is deterministic — the result depends only
on the submitted answer mapping (so repeated calls with the same pair
coincide) — and, for question lists whose ids are pairwise distinct (the
data-model invariant), replacing one previously-incorrect question's answer
by its stored correct answer while keeping every other id's answer
unchanged never lowers the score. -/
theorem C8_scoring_monotone_amended :
    (∀ (qs : List Question) (as₁ as₂ : List QuizAnswer),
        (∀ i : Int, answer_map as₁ i = answer_map as₂ i) →
        calculate_score_and_feedback qs as₁ = calculate_score_and_feedback qs as₂) ∧
    (∀ (qs : List Question) (as as' : List QuizAnswer) (q : Question),
        q ∈ qs → (qs.map Question.id).Nodup →
        isCorrectFor as q = false →
        answer_map as' q.id = some q.correct_answer →
        (∀ i : Int, i ≠ q.id → answer_map as' i = answer_map as i) →
        (calculate_score_and_feedback qs as).score ≤
          (calculate_score_and_feedback qs as').score) := by
  constructor
  · intro qs as₁ as₂ h
    exact calculate_ext qs as₁ as₂ (fun p _ => h p.id)
  · intro qs as as' q hq hnodup hwrong hset hother
    rw [score_eq, score_eq]
    have hlen : qs.length > 0 := List.length_pos.mpr (List.ne_nil_of_mem hq)
    rw [if_pos hlen, if_pos hlen]
    apply round2_mono
    rw [Rat.divInt_eq_div, Rat.divInt_eq_div]
    have hcount : (qs.filter (isCorrectFor as)).length ≤
        (qs.filter (isCorrectFor as')).length := by
      apply filter_length_mono
      intro p hp hcor
      by_cases hid : p.id = q.id
      · have hpq : p = q := List.inj_on_of_nodup_map hnodup hp hq hid
        rw [hpq, hwrong] at hcor
        exact absurd hcor (by simp)
      · unfold isCorrectFor userAnswerFor at hcor ⊢
        rw [hother p.id hid]
        exact hcor
    have hc : (((qs.filter (isCorrectFor as)).length : ℤ) * 100) ≤
        (((qs.filter (isCorrectFor as')).length : ℤ) * 100) := by
      have h100 := Nat.mul_le_mul_right 100 hcount
      exact_mod_cast h100
    have ht : (0 : ℚ) < (((qs.length : ℤ)) : ℚ) := by exact_mod_cast hlen
    exact (div_le_div_right ht).mpr (by exact_mod_cast hc)

/-- Claim C8, witness: a one-question quiz, unanswered, then answered with
the stored correct answer — the score does not decrease. -/
theorem C8_scoring_witness :
    (calculate_score_and_feedback [⟨1, "q", "A", none⟩] []).score ≤
      (calculate_score_and_feedback [⟨1, "q", "A", none⟩] [⟨1, "A"⟩]).score :=
  C8_scoring_monotone_amended.2 [⟨1, "q", "A", none⟩] [] [⟨1, "A"⟩] ⟨1, "q", "A", none⟩
    (by decide) (by decide) (by decide) (by decide)
    (by
      intro i hi
      have hbeq : (((1 : Int) == i) : Bool) = false := by
        simpa using (Ne.symm hi)
      simp [answer_map, List.find?, hbeq])

/-- Claim C9 (confirmed): a question whose id has no submitted answer is
scored against the empty string — it is correct iff its stored correct
answer lowercases and trims to the empty string — and still gets its
feedback entry at its position; submitted answers matching no question
leave the whole result unchanged. -/
theorem C9_missing_extra_answers :
    (∀ (qs : List Question) (as : List QuizAnswer) (i : Nat) (q : Question),
        qs[i]? = some q → answer_map as q.id = none →
        ∃ e : FeedbackEntry,
          (calculate_score_and_feedback qs as).feedback[i]? = some e ∧
          e.user_answer = "" ∧
          (e.is_correct = true ↔ normalizeAnswer q.correct_answer = "")) ∧
    (∀ (qs : List Question) (as extra : List QuizAnswer),
        (∀ a ∈ extra, ∀ p ∈ qs, a.question_id ≠ p.id) →
        calculate_score_and_feedback qs (as ++ extra) =
          calculate_score_and_feedback qs as) := by
  constructor
  · intro qs as i q hq hnone
    refine ⟨feedbackFor as q, ?_, ?_, ?_⟩
    · rw [feedback_eq, List.getElem?_map, hq]
      rfl
    · show normalizeAnswer ((answer_map as q.id).getD "") = ""
      rw [hnone]
      decide
    · show (normalizeAnswer ((answer_map as q.id).getD "") ==
          normalizeAnswer q.correct_answer) = true ↔ _
      rw [hnone]
      show (normalizeAnswer "" == normalizeAnswer q.correct_answer) = true ↔ _
      have hn : normalizeAnswer "" = "" := by decide
      rw [hn, beq_iff_eq]
      exact eq_comm
  · intro qs as extra h
    exact calculate_ext qs (as ++ extra) as
      (fun p hp => answer_map_append_irrelevant as extra p.id (fun a ha => h a ha p hp))

/-- Claim C9, witness: an unanswered question with a non-blank stored
answer gets an empty user answer and stays incorrect, and an extra answer
with an unmatched id changes nothing. -/
theorem C9_missing_extra_witness :
    (∃ e : FeedbackEntry,
      (calculate_score_and_feedback [⟨1, "q", "B", some "ex"⟩] []).feedback[0]? = some e ∧
      e.user_answer = "" ∧
      (e.is_correct = true ↔ normalizeAnswer "B" = "")) ∧
    calculate_score_and_feedback [⟨1, "q", "B", some "ex"⟩] ([⟨1, "b"⟩] ++ [⟨7, "zz"⟩]) =
      calculate_score_and_feedback [⟨1, "q", "B", some "ex"⟩] [⟨1, "b"⟩] :=
  ⟨C9_missing_extra_answers.1 [⟨1, "q", "B", some "ex"⟩] [] 0 ⟨1, "q", "B", some "ex"⟩ rfl rfl,
   C9_missing_extra_answers.2 [⟨1, "q", "B", some "ex"⟩] [⟨1, "b"⟩] [⟨7, "zz"⟩] (by decide)⟩

/-- Claim C10 (confirmed): each feedback entry reports the user answer and
the correct answer in normalized (lowercased, whitespace-trimmed) form —
`normalizeAnswer` of the submitted resp. stored string — not the original
strings. -/
theorem C10_feedback_normalized (qs : List Question) (as : List QuizAnswer)
    (i : Nat) (q : Question) (hq : qs[i]? = some q) :
    ∃ e : FeedbackEntry,
      (calculate_score_and_feedback qs as).feedback[i]? = some e ∧
      e.user_answer = normalizeAnswer ((answer_map as q.id).getD "") ∧
      e.correct_answer = normalizeAnswer q.correct_answer := by
  refine ⟨feedbackFor as q, ?_, rfl, rfl⟩
  rw [feedback_eq, List.getElem?_map, hq]
  rfl

/-- Claim C10, witness: the stored answer `" A "` and submission `" a"`
are both reported as the normalized `a`. -/
theorem C10_feedback_normalized_witness :
    ∃ e : FeedbackEntry,
      (calculate_score_and_feedback [⟨1, "q", " A ", some "ex"⟩] [⟨1, " a"⟩]).feedback[0]? =
        some e ∧
      e.user_answer = "a" ∧ e.correct_answer = "a" := by
  obtain ⟨e, h1, h2, h3⟩ :=
    C10_feedback_normalized [⟨1, "q", " A ", some "ex"⟩] [⟨1, " a"⟩] 0
      ⟨1, "q", " A ", some "ex"⟩ rfl
  refine ⟨e, h1, ?_, ?_⟩
  · rw [h2]
    decide
  · rw [h3]
    decide
